import Mathlib

/-!
Shallow embedding of the patchback GitHub App's webhook event handlers
(`patchback/event_handlers.py`): the git-level backport executor
(`backport_pr_sync`), the per-branch orchestrator
(`process_pr_backport_labels`) with its check-run status protocol, and the
merge-event fan-out (`on_merge_of_labeled_pr`).

Python exceptions are modelled by the inductive `Exc`; note that in Python
`KeyError` and `IndexError` are subclasses of `LookupError`, which the
orchestrator's `except LookupError` clause relies on.  The external git
world (pygit2) and the GitHub API are modelled by environments (`GitEnv`,
`GhEnv`); the orchestrator returns the list of GitHub API calls it issued
(its observable trace) together with a normal / raised-exception outcome.
-/

deriving instance DecidableEq for Except

namespace Patchback

/-- Python exception values relevant to the handlers.  `keyError`,
`lookupError` and `indexError` are all `LookupError`s in Python's
hierarchy. -/
inductive Exc where
  | keyError (key : String)
  | lookupError (msg : String)
  | indexError (msg : String)
  | gitError (msg : String)
  | permissionError (msg : String)
  | badRequest (statusCode : Nat) (msg : String)
  | validationError (msg : String)
deriving DecidableEq

/-- Whether the exception is caught by Python's `except LookupError`:
`KeyError` and `IndexError` are subclasses of `LookupError`. -/
def Exc.isLookupError : Exc → Bool
  | .keyError _ => true
  | .lookupError _ => true
  | .indexError _ => true
  | _ => false

/-- Python `str(exc)`: for `KeyError` the repr of the missing key
(quoted), for the others the plain message. -/
def Exc.str : Exc → String
  | .keyError k => "'" ++ k ++ "'"
  | .lookupError m => m
  | .indexError m => m
  | .gitError m => m
  | .permissionError m => m
  | .badRequest _ m => m
  | .validationError m => m

/-- A pygit2 `Signature` (name, email). -/
structure Signature where
  name : String
  email : String
deriving DecidableEq

/-- A git commit object as the executor observes it: its oid, parent
oids, tree oid, author and message. -/
structure Commit where
  oid : String
  parents : List String
  tree : String
  author : Signature
  message : String
deriving DecidableEq

/-- Abstract state of the remote git repository plus the outcomes of the
network-facing git operations that one `backport_pr_sync` run performs. -/
structure GitEnv where
  /-- Outcome of `clone_repository` (the code wraps a raised `KeyError`
  into `LookupError('Failed to check out branch …')`). -/
  cloneResult : Except Exc Unit
  /-- Object lookup (`revparse_single`, `.parents[i]`, branch peeling):
  oid or revision to commit object. -/
  commits : String → Option Commit
  /-- `repo.branches[name]`: branch name to tip oid; `none` raises
  `KeyError(name)`. -/
  branches : String → Option String
  /-- `repo.merge_base a b` (computed by the code but not used as the
  merge base tree). -/
  mergeBase : String → String → String
  /-- `repo.merge_trees base ours theirs` followed by
  `index.write_tree`: abstract function from the three tree oids to the
  merged tree oid. -/
  mergeTrees : String → String → String → String
  /-- Outcome of `remote.push`: `none` on success, `some msg` when a
  `GitError(msg)` is raised. -/
  pushError : Option String

/-- The commit written onto the backport branch by `repo.create_commit`. -/
structure NewCommit where
  refName : String
  author : Signature
  committer : Signature
  message : String
  tree : String
  parents : List String
deriving DecidableEq

/-- What a successful `backport_pr_sync` run leaves behind: the pushed
branch name (the Python function's return value) and the commit it
created on it. -/
structure BackportOutcome where
  branch : String
  commit : NewCommit
deriving DecidableEq

/-- The fixed bot committer identity `Signature('Patchback',
'patchback@sanitizers.bot')`. -/
def bot_committer : Signature :=
  { name := "Patchback", email := "patchback@sanitizers.bot" }

/-- The backport branch name computed at the top of `backport_pr_sync`:
`f'patchback/backports/{target_branch}/{merge_commit_sha}/pr{pr_number}'`. -/
def backport_branch_name (target_branch merge_commit_sha : String)
    (pr_number : Nat) : String :=
  "patchback/backports/" ++ target_branch ++ "/" ++ merge_commit_sha ++
    "/pr" ++ Nat.repr pr_number

/-- The git-level executor `backport_pr_sync`: clone, resolve the cherry
commit and the target branch's remote-tracking tip, three-way tree merge
with the cherry's first parent tree as base, commit, push.  The match
order follows the Python statement order (lines 66-145). -/
def backport_pr_sync (pr_number : Nat)
    (merge_commit_sha target_branch _repo_slug repo_remote
      _installation_access_token : String)
    (env : GitEnv) : Except Exc BackportOutcome :=
  let backport_pr_branch :=
    backport_branch_name target_branch merge_commit_sha pr_number
  match env.cloneResult with
  | .error (.keyError _) =>
      .error (.lookupError ("Failed to check out branch " ++ target_branch))
  | .error e => .error e
  | .ok _ =>
  match env.commits merge_commit_sha with
  | none => .error (.keyError merge_commit_sha)
  | some cherry =>
  match env.branches ("origin/" ++ target_branch) with
  | none => .error (.keyError ("origin/" ++ target_branch))
  | some branchTip =>
  let _base := env.mergeBase cherry.oid branchTip
  match cherry.parents with
  | [] => .error (.indexError "list index out of range")
  | firstParent :: _ =>
  match env.commits firstParent with
  | none => .error (.keyError firstParent)
  | some parentCommit =>
  match env.commits branchTip with
  | none => .error (.keyError branchTip)
  | some tipCommit =>
  let base_tree := parentCommit.tree
  let tree_id := env.mergeTrees base_tree tipCommit.tree cherry.tree
  let newCommit : NewCommit :=
    { refName := "refs/heads/" ++ backport_pr_branch
      author := cherry.author
      committer := bot_committer
      message := cherry.message
      tree := tree_id
      parents := [branchTip] }
  match env.pushError with
  | some m =>
      if m = "unexpected http status code: 403" then
        .error (.permissionError
          ("Current GitHub App installation does not grant sufficient " ++
            "privileges for pushing to " ++ repo_remote ++ ". `Contents: " ++
            "write` permission is necessary to fix this."))
      else .error (.gitError m)
  | none => .ok { branch := backport_pr_branch, commit := newCommit }

/-- One GitHub API interaction issued by the orchestrator, in order. -/
inductive ApiCall where
  /-- `POST /repos/{slug}/check-runs` with the given check name and head
  sha (attempted; may have failed). -/
  | createCheck (name headSha : String)
  /-- `PATCH …/check-runs/{id}` with status, optional conclusion and
  optional output title/text/summary. -/
  | patchCheck (id : Nat) (status : String) (conclusion : Option String)
      (title text summary : Option String)
  /-- `app_installation.get_token()` — fetching the installation token
  just before running the executor. -/
  | getToken
  /-- `POST {pulls_url}` creating the backport pull request (attempted). -/
  | createPR (url title head base body : String)
      (maintainerCanModify draft : Bool)
deriving DecidableEq

/-- Whether a call is a check-run update (`PATCH`). -/
def ApiCall.isPatchCheck : ApiCall → Bool
  | .patchCheck _ _ _ _ _ _ => true
  | _ => false

/-- Whether a call is a terminal check-run transition (status
`completed`). -/
def ApiCall.isTerminal : ApiCall → Bool
  | .patchCheck _ s _ _ _ _ => s = "completed"
  | _ => false

/-- Whether a call is a terminal transition to `completed(success)`. -/
def ApiCall.isSuccessTerminal : ApiCall → Bool
  | .patchCheck _ s c _ _ _ => s = "completed" && c = some "success"
  | _ => false

/-- Whether a call is an attempted pull-request creation. -/
def ApiCall.isCreatePR : ApiCall → Bool
  | .createPR _ _ _ _ _ _ _ => true
  | _ => false

/-- The GitHub-side environment of one `process_pr_backport_labels`
run. -/
structure GhEnv where
  /-- Outcome of check-run creation: the new check run's id, or the
  exception the POST raised. -/
  checkCreate : Except Exc Nat
  /-- The installation access token. -/
  token : String
  /-- The git world the executor runs against. -/
  gitEnv : GitEnv
  /-- Outcome of pull-request creation: the new PR's `html_url`, or the
  exception the POST raised. -/
  prCreate : Except Exc String

/-- `check_run_name = f'Backport to {target_branch}'`. -/
def check_run_name (target_branch : String) : String :=
  "Backport to " ++ target_branch

/-- The condition under which the check-run-creation `BadRequest` is
swallowed (degraded mode) rather than re-raised: HTTP 403 with exactly
this message. -/
def check_denied (e : Exc) : Bool :=
  match e with
  | .badRequest code msg =>
      code = 403 && msg = "Resource not accessible by integration"
  | _ => false

/-- The part of `process_pr_backport_labels` after the check-run has been
created (or reporting degraded): token fetch, executor run, classified
exception handling, pull-request creation, final status transitions
(lines 294-464).  Returns the outcome (normal return or propagated
exception) and the trace of API calls issued by this part. -/
def backport_rest (pr_number : Nat)
    (pr_title pr_body pr_base_ref pr_merge_commit target_branch pr_api_url
      repo_slug git_url : String)
    (env : GhEnv) (useChecks : Bool) (checkId : Nat) :
    Except Exc Unit × List ApiCall :=
  let name := check_run_name target_branch
  let execRes :=
    backport_pr_sync pr_number pr_merge_commit target_branch repo_slug
      git_url env.token env.gitEnv
  match execRes with
  | .error e =>
      if e.isLookupError then
        if useChecks then
          (.ok (), [.getToken,
            .patchCheck checkId "completed" (some "neutral")
              (some (name ++
                ": cherry-picking failed — target branch does not exist"))
              (some "") (some e.str)])
        else (.ok (), [.getToken])
      else
        match e with
        | .permissionError _ =>
            if useChecks then
              (.ok (), [.getToken,
                .patchCheck checkId "completed" (some "neutral")
                  (some (name ++ ": cherry-picking failed — could not push"))
                  (some "") (some e.str)])
            else (.ok (), [.getToken])
        | _ => (.error e, [.getToken])
  | .ok outcome =>
      let milestone :=
        if useChecks then
          [ApiCall.patchCheck checkId "in_progress" none
            (some (name ++ ": cherry-pick succeeded"))
            (some "PR branch created, proceeding with making a PR.")
            (some ("Backport PR branch: `" ++ outcome.branch))]
        else []
      let prCall :=
        ApiCall.createPR pr_api_url
          ("[PR #" ++ Nat.repr pr_number ++ "/" ++ pr_merge_commit.take 8 ++
            " backport][" ++ target_branch ++ "] " ++ pr_title)
          outcome.branch target_branch
          ("**This is a backport of PR #" ++ Nat.repr pr_number ++
            " as merged into " ++ pr_base_ref ++ " (" ++ pr_merge_commit ++
            ").**\n\n" ++ pr_body)
          true false
      match env.prCreate with
      | .ok html_url =>
          let final :=
            if useChecks then
              [ApiCall.patchCheck checkId "completed" (some "success")
                (some (name ++ ": backport PR created"))
                (some ("Backported as " ++ html_url))
                (some ("Backport PR branch: `" ++ outcome.branch))]
            else []
          (.ok (), .getToken :: milestone ++ [prCall] ++ final)
      | .error (.validationError m) =>
          let final :=
            if useChecks then
              [ApiCall.patchCheck checkId "completed" (some "neutral")
                (some (name ++ ": creation of the backport PR failed"))
                (some "")
                (some ("Backport PR branch: `" ++ outcome.branch ++
                  "\n\n" ++ m))]
            else []
          (.ok (), .getToken :: milestone ++ [prCall] ++ final)
      | .error (.badRequest code m) =>
          if code = 403 && m = "Resource not accessible by integration" then
            let final :=
              if useChecks then
                [ApiCall.patchCheck checkId "completed" (some "neutral")
                  (some (name ++ ": creation of the backport PR failed"))
                  (some "")
                  (some ("Backport PR branch: `" ++ outcome.branch ++
                    "\n\n" ++ m))]
              else []
            (.ok (), .getToken :: milestone ++ [prCall] ++ final)
          else
            (.error (.badRequest code m), .getToken :: milestone ++ [prCall])
      | .error e => (.error e, .getToken :: milestone ++ [prCall])

/-- The per-branch orchestrator `process_pr_backport_labels`: attempt to
create the check run, degrade on the classified 403, propagate anything
else, then run the rest. -/
def process_pr_backport_labels (pr_number : Nat)
    (pr_title pr_body pr_base_ref pr_head_ref pr_merge_commit target_branch
      pr_api_url repo_slug git_url : String)
    (env : GhEnv) : Except Exc Unit × List ApiCall :=
  let name := check_run_name target_branch
  match env.checkCreate with
  | .error e =>
      if check_denied e then
        let rest := backport_rest pr_number pr_title pr_body pr_base_ref
          pr_merge_commit target_branch pr_api_url repo_slug git_url env
          false 0
        (rest.1, .createCheck name pr_head_ref :: rest.2)
      else (.error e, [.createCheck name pr_head_ref])
  | .ok checkId =>
      let rest := backport_rest pr_number pr_title pr_body pr_base_ref
        pr_merge_commit target_branch pr_api_url repo_slug git_url env
        true checkId
      (rest.1,
        .createCheck name pr_head_ref ::
          .patchCheck checkId "in_progress" none none none none :: rest.2)

/-- The backport label marker `BACKPORT_LABEL_PREFIX = 'backport-'`. -/
def backportLabelMarker : String := "backport-"

/-- The webhook's pull-request subobject fields the handlers read. -/
structure PullRequest where
  merged : Bool
  merge_commit_sha : String
  title : String
  body : String
  base_ref : String
  head_ref : String
  labels : List String
deriving DecidableEq

/-- The webhook's repository subobject fields the handlers read. -/
structure Repository where
  full_name : String
  clone_url : String
  pulls_url : String
deriving DecidableEq

/-- The target branches extracted from the PR's labels:
`[label[9:] for label in labels if label.startswith('backport-')]`.
Python's `startswith` and code-point slicing are expressed on the
strings' character lists. -/
def target_branches_of (labels : List String) : List String :=
  (labels.filter (fun l => backportLabelMarker.data.isPrefixOf l.data)).map
    (fun l => ⟨l.data.drop backportLabelMarker.length⟩)

/-- The sequential `for target_branch in target_branches: await
process_pr_backport_labels(…)` loop: each branch runs against its own
environment; a propagated (unclassified) exception aborts the remaining
iterations.  Returns the outcome and, per processed branch, its API-call
trace. -/
def backport_loop (number : Nat) (pr : PullRequest) (repo : Repository)
    (envs : String → GhEnv) :
    List String → Except Exc Unit × List (String × List ApiCall)
  | [] => (.ok (), [])
  | tb :: rest =>
      let one := process_pr_backport_labels number pr.title pr.body
        pr.base_ref pr.head_ref pr.merge_commit_sha tb repo.pulls_url
        repo.full_name repo.clone_url (envs tb)
      match one.1 with
      | .error e => (.error e, [(tb, one.2)])
      | .ok _ =>
          let restRun := backport_loop number pr repo envs rest
          (restRun.1, (tb, one.2) :: restRun.2)

/-- The merge-event handler `on_merge_of_labeled_pr` (composed with the
`ensure_pr_merged` wrapper): ignore unmerged PRs and PRs without backport
labels, otherwise process every target branch in label order. -/
def on_merge_of_labeled_pr (number : Nat) (pr : PullRequest)
    (repo : Repository) (envs : String → GhEnv) :
    Except Exc Unit × List (String × List ApiCall) :=
  if !pr.merged then (.ok (), [])
  else
    let tbs := target_branches_of pr.labels
    if tbs.isEmpty then (.ok (), [])
    else backport_loop number pr repo envs tbs

/-- Number of terminal check-run transitions (status `completed`) in a
trace. -/
def countTerminal (tr : List ApiCall) : Nat :=
  (tr.filter (fun c => c.isTerminal)).length

/-! Concrete sample worlds used to evaluate the definitions at explicit
inputs. -/

/-- A sample merge commit (the cherry): two parents, as a merge commit
has. -/
def cherryX : Commit :=
  { oid := "mc", parents := ["p1", "p2"], tree := "tc",
    author := { name := "Alice", email := "a@x" }, message := "msg" }

/-- The cherry's first parent. -/
def parentX : Commit :=
  { oid := "p1", parents := [], tree := "tp",
    author := { name := "B", email := "b@x" }, message := "pm" }

/-- The tip of the target branch `v1.2`. -/
def tipX : Commit :=
  { oid := "tip", parents := [], tree := "tt",
    author := { name := "C", email := "c@x" }, message := "tm" }

/-- A git world where everything succeeds: branch `v1.2` exists and the
push is accepted. -/
def gitEnvX : GitEnv :=
  { cloneResult := .ok ()
    commits := fun s =>
      if s = "mc" then some cherryX
      else if s = "p1" then some parentX
      else if s = "tip" then some tipX
      else none
    branches := fun b => if b = "origin/v1.2" then some "tip" else none
    mergeBase := fun _ _ => "mb"
    mergeTrees := fun a b c => "merged(" ++ a ++ "," ++ b ++ "," ++ c ++ ")"
    pushError := none }

/-- The outcome `backport_pr_sync` produces on `gitEnvX` for PR #42. -/
def outcomeX : BackportOutcome :=
  { branch := "patchback/backports/v1.2/mc/pr42"
    commit :=
      { refName := "refs/heads/patchback/backports/v1.2/mc/pr42"
        author := { name := "Alice", email := "a@x" }
        committer := bot_committer
        message := "msg"
        tree := "merged(tp,tt,tc)"
        parents := ["tip"] } }

/-- A GitHub world where everything succeeds. -/
def ghEnvX : GhEnv :=
  { checkCreate := .ok 7
    token := "tok"
    gitEnv := gitEnvX
    prCreate := .ok "http://pr" }

/-- `gitEnvX` with the target branch absent (no branch resolves). -/
def gitEnvMissing : GitEnv :=
  { gitEnvX with branches := fun _ => none }

/-- GitHub world whose git side lacks the target branch. -/
def ghEnvMissing : GhEnv :=
  { ghEnvX with gitEnv := gitEnvMissing }

/-- `gitEnvX` with the push rejected by the classified HTTP 403. -/
def gitEnvPush403 : GitEnv :=
  { gitEnvX with pushError := some "unexpected http status code: 403" }

/-- GitHub world whose push is rejected for insufficient scope. -/
def ghEnvPush403 : GhEnv :=
  { ghEnvX with gitEnv := gitEnvPush403 }

/-- `gitEnvX` with the push rejected by an unclassified `GitError`. -/
def gitEnvBoom : GitEnv :=
  { gitEnvX with pushError := some "boom" }

/-- GitHub world with check-run creation succeeding but the push failing
with an unclassified error. -/
def ghEnvBoom : GhEnv :=
  { ghEnvX with gitEnv := gitEnvBoom }

/-- GitHub world where check-run creation is denied with the classified
403 (degraded reporting) and everything else succeeds. -/
def ghEnvDegraded : GhEnv :=
  { ghEnvX with
      checkCreate :=
        .error (.badRequest 403 "Resource not accessible by integration") }

/-- GitHub world where check-run creation fails with an unclassified
error. -/
def ghEnvCheckBoom : GhEnv :=
  { ghEnvX with checkCreate := .error (.gitError "boom") }

/-- A merged PR carrying two backport labels. -/
def prX : PullRequest :=
  { merged := true, merge_commit_sha := "mc", title := "T", body := "B",
    base_ref := "main", head_ref := "feat",
    labels := ["backport-v1.2", "backport-v1.3"] }

/-- A sample repository subobject. -/
def repoX : Repository :=
  { full_name := "o/r", clone_url := "url", pulls_url := "purl" }

/-- Per-branch environments where every branch succeeds. -/
def envsOk : String → GhEnv := fun _ => ghEnvX

/-- Per-branch environments where every branch's check-run creation
fails with an unclassified error. -/
def envsBoom : String → GhEnv := fun _ => ghEnvCheckBoom

end Patchback

namespace Patchback

/-! ## Claim theorems -/

/-- C2 (counterexample): the branch name computed by `backport_pr_sync`
is NOT `backports/<target_branch>/<merge_commit_sha>/pr<pr_number>`: the
code prepends `patchback/`.  For target branch `v1.2`, sha `0123abcd`
and PR #42 the computed name differs from the claimed string and equals
the `patchback/`-prefixed one. -/
theorem C2_counterexample :
    backport_branch_name "v1.2" "0123abcd" 42 ≠
      "backports/v1.2/0123abcd/pr42" ∧
    backport_branch_name "v1.2" "0123abcd" 42 =
      "patchback/backports/v1.2/0123abcd/pr42" := by
  decide

/-- C2 (amended): for every (target_branch, merge_commit_sha, pr_number)
triple, whenever the executor succeeds, the branch name it returns (the
one it created and pushed) is exactly
`patchback/backports/<target_branch>/<merge_commit_sha>/pr<pr_number>`. -/
theorem C2_branch_name (pr_number : Nat)
    (sha tb slug url tok : String) (env : GitEnv)
    (outcome : BackportOutcome)
    (h : backport_pr_sync pr_number sha tb slug url tok env = .ok outcome) :
    outcome.branch =
      "patchback/backports/" ++ tb ++ "/" ++ sha ++ "/pr" ++
        Nat.repr pr_number := by
  unfold backport_pr_sync at h
  repeat' split at h
  all_goals (cases h)
  rfl

/-- C2 (witness): the amended claim evaluated on the concrete sample
world, for PR #42, sha `mc`, target branch `v1.2`. -/
theorem C2_branch_name_witness :
    outcomeX.branch =
      "patchback/backports/" ++ "v1.2" ++ "/" ++ "mc" ++ "/pr" ++
        Nat.repr 42 :=
  C2_branch_name 42 "mc" "v1.2" "o/r" "url" "tok" gitEnvX outcomeX
    (by decide)

/-- C3: on every successful executor run, the three-way tree merge takes
the cherry's first parent's tree as its base (first argument of
`mergeTrees`) — for an arbitrary `mergeBase` function, so not the
computed merge base of cherry and branch tip — and the commit created on
the backport branch has author = the cherry's author, committer = the
fixed bot identity, message = the cherry's message, tree = the merged
tree, and exactly one parent: the target branch's remote-tracking tip. -/
theorem C3_merge_commit_shape (pr_number : Nat)
    (sha tb slug url tok tip firstParent : String) (env : GitEnv)
    (cherry parentCommit tipCommit : Commit) (ps : List String)
    (hclone : env.cloneResult = .ok ())
    (hcherry : env.commits sha = some cherry)
    (htip : env.branches ("origin/" ++ tb) = some tip)
    (hparents : cherry.parents = firstParent :: ps)
    (hp : env.commits firstParent = some parentCommit)
    (ht : env.commits tip = some tipCommit)
    (hpush : env.pushError = none) :
    backport_pr_sync pr_number sha tb slug url tok env =
      .ok { branch := backport_branch_name tb sha pr_number
            commit :=
              { refName :=
                  "refs/heads/" ++ backport_branch_name tb sha pr_number
                author := cherry.author
                committer := bot_committer
                message := cherry.message
                tree :=
                  env.mergeTrees parentCommit.tree tipCommit.tree cherry.tree
                parents := [tip] } } := by
  simp [backport_pr_sync, hclone, hcherry, htip, hparents, hp, ht, hpush]

/-- C3 (witness): the commit-shape theorem evaluated on the concrete
sample world: author Alice, bot committer, message `msg`, tree merged
from the first parent's tree `tp` (not the computed merge base `mb`),
single parent `tip`. -/
theorem C3_merge_commit_shape_witness :
    backport_pr_sync 42 "mc" "v1.2" "o/r" "url" "tok" gitEnvX =
      .ok { branch := backport_branch_name "v1.2" "mc" 42
            commit :=
              { refName :=
                  "refs/heads/" ++ backport_branch_name "v1.2" "mc" 42
                author := cherryX.author
                committer := bot_committer
                message := cherryX.message
                tree :=
                  gitEnvX.mergeTrees parentX.tree tipX.tree cherryX.tree
                parents := ["tip"] } } :=
  C3_merge_commit_shape 42 "mc" "v1.2" "o/r" "url" "tok" "tip" "p1"
    gitEnvX cherryX parentX tipX ["p2"] (by decide) (by decide) (by decide)
    (by decide) (by decide) (by decide) (by decide)

end Patchback

namespace Patchback

/-- C10: when check-run creation fails with anything other than the
classified HTTP 403 `Resource not accessible by integration`, the error
propagates out of the orchestrator at once: the only API interaction is
the attempted check-run creation — the installation token is never
fetched and neither git work nor pull-request creation is attempted. -/
theorem C10_unclassified_check_failure (pr_number : Nat)
    (title body baseRef headRef sha tb purl slug url : String)
    (env : GhEnv) (e : Exc)
    (hc : env.checkCreate = .error e) (hd : check_denied e = false) :
    process_pr_backport_labels pr_number title body baseRef headRef sha tb
        purl slug url env =
      (.error e, [.createCheck (check_run_name tb) headRef]) ∧
    ApiCall.getToken ∉
      (process_pr_backport_labels pr_number title body baseRef headRef sha
        tb purl slug url env).2 ∧
    ∀ c ∈ (process_pr_backport_labels pr_number title body baseRef headRef
        sha tb purl slug url env).2,
      c.isCreatePR = false ∧ c.isPatchCheck = false := by
  have hmain : process_pr_backport_labels pr_number title body baseRef
      headRef sha tb purl slug url env =
      (.error e, [.createCheck (check_run_name tb) headRef]) := by
    simp [process_pr_backport_labels, hc, hd]
  refine ⟨hmain, ?_, ?_⟩ <;> rw [hmain] <;>
    simp [ApiCall.isCreatePR, ApiCall.isPatchCheck]

/-- C10 (witness): evaluated on the concrete world whose check-run
creation raises the unclassified `GitError('boom')`. -/
theorem C10_unclassified_check_failure_witness :
    process_pr_backport_labels 42 "T" "B" "main" "feat" "mc" "v1.2" "purl"
        "o/r" "url" ghEnvCheckBoom =
      (.error (.gitError "boom"),
        [.createCheck (check_run_name "v1.2") "feat"]) ∧
    ApiCall.getToken ∉
      (process_pr_backport_labels 42 "T" "B" "main" "feat" "mc" "v1.2"
        "purl" "o/r" "url" ghEnvCheckBoom).2 ∧
    ∀ c ∈ (process_pr_backport_labels 42 "T" "B" "main" "feat" "mc" "v1.2"
        "purl" "o/r" "url" ghEnvCheckBoom).2,
      c.isCreatePR = false ∧ c.isPatchCheck = false :=
  C10_unclassified_check_failure 42 "T" "B" "main" "feat" "mc" "v1.2"
    "purl" "o/r" "url" ghEnvCheckBoom (.gitError "boom") (by decide)
    (by decide)

/-- C1: when the target branch's remote-tracking ref cannot be resolved
(and the preceding clone and cherry lookup succeed), the executor fails
with a `LookupError`-classified exception (`KeyError` is a `LookupError`
in Python), and the orchestrator — given a created check object — drives
it to exactly one `completed(neutral)` transition whose summary names the
missing branch, creating no pull request. -/
theorem C1_target_branch_missing (pr_number : Nat)
    (title body baseRef headRef sha tb purl slug url : String)
    (env : GhEnv) (cherry : Commit) (checkId : Nat)
    (hclone : env.gitEnv.cloneResult = .ok ())
    (hcherry : env.gitEnv.commits sha = some cherry)
    (hmissing : env.gitEnv.branches ("origin/" ++ tb) = none)
    (hcheck : env.checkCreate = .ok checkId) :
    (∃ e, backport_pr_sync pr_number sha tb slug url env.token env.gitEnv =
        .error e ∧ e.isLookupError = true) ∧
    process_pr_backport_labels pr_number title body baseRef headRef sha tb
        purl slug url env =
      (.ok (),
        [.createCheck (check_run_name tb) headRef,
          .patchCheck checkId "in_progress" none none none none,
          .getToken,
          .patchCheck checkId "completed" (some "neutral")
            (some (check_run_name tb ++
              ": cherry-picking failed — target branch does not exist"))
            (some "") (some ("'origin/" ++ tb ++ "'"))]) ∧
    ∀ c ∈ (process_pr_backport_labels pr_number title body baseRef headRef
        sha tb purl slug url env).2,
      c.isCreatePR = false := by
  have hE : backport_pr_sync pr_number sha tb slug url env.token
      env.gitEnv = .error (.keyError ("origin/" ++ tb)) := by
    simp [backport_pr_sync, hclone, hcherry, hmissing]
  have hmain : process_pr_backport_labels pr_number title body baseRef
      headRef sha tb purl slug url env =
      (.ok (),
        [.createCheck (check_run_name tb) headRef,
          .patchCheck checkId "in_progress" none none none none,
          .getToken,
          .patchCheck checkId "completed" (some "neutral")
            (some (check_run_name tb ++
              ": cherry-picking failed — target branch does not exist"))
            (some "") (some ("'origin/" ++ tb ++ "'"))]) := by
    simp [process_pr_backport_labels, hcheck, backport_rest, hE,
      Exc.isLookupError, Exc.str]
    rw [← String.append_assoc,
      show ("'" ++ "origin/" : String) = "'origin/" from by decide]
  refine ⟨⟨.keyError ("origin/" ++ tb), hE, rfl⟩, hmain, ?_⟩
  rw [hmain]
  simp [ApiCall.isCreatePR]

/-- C1 (witness): evaluated on the concrete world where no remote branch
resolves: the check run completes neutral with summary `'origin/v1.2'`,
and no PR-creation call appears. -/
theorem C1_target_branch_missing_witness :
    (∃ e, backport_pr_sync 42 "mc" "v1.2" "o/r" "url" ghEnvMissing.token
        ghEnvMissing.gitEnv = .error e ∧ e.isLookupError = true) ∧
    process_pr_backport_labels 42 "T" "B" "main" "feat" "mc" "v1.2" "purl"
        "o/r" "url" ghEnvMissing =
      (.ok (),
        [.createCheck (check_run_name "v1.2") "feat",
          .patchCheck 7 "in_progress" none none none none,
          .getToken,
          .patchCheck 7 "completed" (some "neutral")
            (some (check_run_name "v1.2" ++
              ": cherry-picking failed — target branch does not exist"))
            (some "") (some ("'origin/" ++ "v1.2" ++ "'"))]) ∧
    ∀ c ∈ (process_pr_backport_labels 42 "T" "B" "main" "feat" "mc" "v1.2"
        "purl" "o/r" "url" ghEnvMissing).2,
      c.isCreatePR = false :=
  C1_target_branch_missing 42 "T" "B" "main" "feat" "mc" "v1.2" "purl"
    "o/r" "url" ghEnvMissing cherryX 7 (by decide) (by decide) (by decide)
    (by decide)

/-- C4: when the push is rejected with the HTTP 403 `GitError`, the
executor fails with the classified `PermissionError` (its message naming
the missing `Contents: write` scope) and the orchestrator attempts no
pull-request creation on any path; a push failure with any other message
propagates out of the executor unchanged as its original `GitError`. -/
theorem C4_push_permission (pr_number : Nat)
    (title body baseRef headRef sha tb purl slug url tip firstParent :
      String)
    (env : GhEnv) (cherry parentCommit tipCommit : Commit)
    (ps : List String) (m : String)
    (hclone : env.gitEnv.cloneResult = .ok ())
    (hcherry : env.gitEnv.commits sha = some cherry)
    (htip : env.gitEnv.branches ("origin/" ++ tb) = some tip)
    (hparents : cherry.parents = firstParent :: ps)
    (hp : env.gitEnv.commits firstParent = some parentCommit)
    (ht : env.gitEnv.commits tip = some tipCommit)
    (hpush : env.gitEnv.pushError = some m) :
    (m = "unexpected http status code: 403" →
      backport_pr_sync pr_number sha tb slug url env.token env.gitEnv =
        .error (.permissionError
          ("Current GitHub App installation does not grant sufficient " ++
            "privileges for pushing to " ++ url ++ ". `Contents: " ++
            "write` permission is necessary to fix this.")) ∧
      ∀ c ∈ (process_pr_backport_labels pr_number title body baseRef
          headRef sha tb purl slug url env).2,
        c.isCreatePR = false) ∧
    (m ≠ "unexpected http status code: 403" →
      backport_pr_sync pr_number sha tb slug url env.token env.gitEnv =
        .error (.gitError m)) := by
  constructor
  · intro hm
    subst hm
    have hE : backport_pr_sync pr_number sha tb slug url env.token
        env.gitEnv =
        .error (.permissionError
          ("Current GitHub App installation does not grant sufficient " ++
            "privileges for pushing to " ++ url ++ ". `Contents: " ++
            "write` permission is necessary to fix this.")) := by
      simp [backport_pr_sync, hclone, hcherry, htip, hparents, hp, ht,
        hpush]
    refine ⟨hE, ?_⟩
    rcases hcc : env.checkCreate with e | checkId
    · by_cases hd : check_denied e = true
      · simp [process_pr_backport_labels, hcc, hd, backport_rest, hE,
          Exc.isLookupError, ApiCall.isCreatePR]
      · simp only [Bool.not_eq_true] at hd
        simp [process_pr_backport_labels, hcc, hd, ApiCall.isCreatePR]
    · simp [process_pr_backport_labels, hcc, backport_rest, hE,
        Exc.isLookupError, ApiCall.isCreatePR]
  · intro hm
    simp [backport_pr_sync, hclone, hcherry, htip, hparents, hp, ht,
      hpush, hm]

/-- C4 (witness): evaluated on the concrete world whose push is rejected
with the classified 403. -/
theorem C4_push_permission_witness :
    ((("unexpected http status code: 403" : String) =
        "unexpected http status code: 403" →
      backport_pr_sync 42 "mc" "v1.2" "o/r" "url" ghEnvPush403.token
          ghEnvPush403.gitEnv =
        .error (.permissionError
          ("Current GitHub App installation does not grant sufficient " ++
            "privileges for pushing to " ++ "url" ++ ". `Contents: " ++
            "write` permission is necessary to fix this.")) ∧
      ∀ c ∈ (process_pr_backport_labels 42 "T" "B" "main" "feat" "mc"
          "v1.2" "purl" "o/r" "url" ghEnvPush403).2,
        c.isCreatePR = false) ∧
    (("unexpected http status code: 403" : String) ≠
        "unexpected http status code: 403" →
      backport_pr_sync 42 "mc" "v1.2" "o/r" "url" ghEnvPush403.token
          ghEnvPush403.gitEnv =
        .error (.gitError "unexpected http status code: 403"))) :=
  C4_push_permission 42 "T" "B" "main" "feat" "mc" "v1.2" "purl" "o/r"
    "url" "tip" "p1" ghEnvPush403 cherryX parentX tipX ["p2"]
    "unexpected http status code: 403" (by decide) (by decide) (by decide)
    (by decide) (by decide) (by decide) (by decide)

end Patchback

namespace Patchback

/-! ### Structural facts about the post-check part of the orchestrator -/

/-- The orchestrator's shape when the check run was created: the creation
call, the first `in_progress` update, then the rest. -/
theorem process_created_eq (n : Nat)
    (t b br hr mc tb purl slug url : String) (env : GhEnv) (cid : Nat)
    (hc : env.checkCreate = .ok cid) :
    process_pr_backport_labels n t b br hr mc tb purl slug url env =
      ((backport_rest n t b br mc tb purl slug url env true cid).1,
        .createCheck (check_run_name tb) hr ::
          .patchCheck cid "in_progress" none none none none ::
            (backport_rest n t b br mc tb purl slug url env true cid).2) := by
  simp [process_pr_backport_labels, hc]

/-- The orchestrator's shape in degraded mode (check-run creation denied
with the classified 403): the attempted creation call, then the rest with
reporting disabled. -/
theorem process_denied_eq (n : Nat)
    (t b br hr mc tb purl slug url : String) (env : GhEnv) (eD : Exc)
    (hc : env.checkCreate = .error eD) (hd : check_denied eD = true) :
    process_pr_backport_labels n t b br hr mc tb purl slug url env =
      ((backport_rest n t b br mc tb purl slug url env false 0).1,
        .createCheck (check_run_name tb) hr ::
          (backport_rest n t b br mc tb purl slug url env false 0).2) := by
  simp [process_pr_backport_labels, hc, hd]

/-- The token fetch always appears in the post-check trace. -/
theorem rest_token_mem (n : Nat) (t b br mc tb purl slug url : String)
    (env : GhEnv) (u : Bool) (cid : Nat) :
    ApiCall.getToken ∈
      (backport_rest n t b br mc tb purl slug url env u cid).2 := by
  cases hE : backport_pr_sync n mc tb slug url env.token env.gitEnv with
  | error e =>
      rcases e <;> simp [backport_rest, hE, Exc.isLookupError] <;>
        try (split <;> simp)
  | ok outcome =>
      rcases hpr : env.prCreate with e2 | u2
      · rcases e2 <;> simp [backport_rest, hE, hpr] <;>
          try (split <;> simp)
      · simp [backport_rest, hE, hpr]

/-- With reporting disabled the post-check part issues no check-run
update at all. -/
theorem rest_false_all_no_patch (n : Nat)
    (t b br mc tb purl slug url : String) (env : GhEnv) (cid : Nat) :
    ((backport_rest n t b br mc tb purl slug url env false cid).2.all
      (fun c => !c.isPatchCheck)) = true := by
  cases hE : backport_pr_sync n mc tb slug url env.token env.gitEnv with
  | error e =>
      rcases e <;>
        simp [backport_rest, hE, Exc.isLookupError, ApiCall.isPatchCheck]
  | ok outcome =>
      rcases hpr : env.prCreate with e2 | u2
      · rcases e2 <;>
          simp [backport_rest, hE, hpr, ApiCall.isPatchCheck] <;>
          try (split <;> simp [ApiCall.isPatchCheck])
      · simp [backport_rest, hE, hpr, ApiCall.isPatchCheck]

/-- Whenever the executor succeeds, the post-check part attempts creation
of the backport pull request with the payload built from the request. -/
theorem rest_pr_call_mem (n : Nat) (t b br mc tb purl slug url : String)
    (env : GhEnv) (u : Bool) (cid : Nat) (outcome : BackportOutcome)
    (hE : backport_pr_sync n mc tb slug url env.token env.gitEnv =
      .ok outcome) :
    ApiCall.createPR purl
        ("[PR #" ++ Nat.repr n ++ "/" ++ mc.take 8 ++ " backport][" ++
          tb ++ "] " ++ t)
        outcome.branch tb
        ("**This is a backport of PR #" ++ Nat.repr n ++
          " as merged into " ++ br ++ " (" ++ mc ++ ").**\n\n" ++ b)
        true false ∈
      (backport_rest n t b br mc tb purl slug url env u cid).2 := by
  rcases hpr : env.prCreate with e2 | u2
  · rcases e2 <;> simp [backport_rest, hE, hpr] <;> try (split <;> simp)
  · simp [backport_rest, hE, hpr]

/-- A classified executor failure (`LookupError` or `PermissionError`) is
absorbed: the post-check part returns normally. -/
theorem rest_ok_of_classified (n : Nat)
    (t b br mc tb purl slug url : String) (env : GhEnv) (u : Bool)
    (cid : Nat) (e : Exc)
    (hE : backport_pr_sync n mc tb slug url env.token env.gitEnv =
      .error e)
    (hcl : e.isLookupError = true ∨ ∃ pm, e = .permissionError pm) :
    (backport_rest n t b br mc tb purl slug url env u cid).1 = .ok () := by
  rcases e with k | m | m | m | m | ⟨code, m⟩ | m
  case keyError => cases u <;> simp [backport_rest, hE, Exc.isLookupError]
  case lookupError =>
    cases u <;> simp [backport_rest, hE, Exc.isLookupError]
  case indexError =>
    cases u <;> simp [backport_rest, hE, Exc.isLookupError]
  case permissionError =>
    cases u <;> simp [backport_rest, hE, Exc.isLookupError]
  case gitError =>
    exfalso
    rcases hcl with hl | ⟨pm, hpm⟩
    · simp [Exc.isLookupError] at hl
    · cases hpm
  case badRequest =>
    exfalso
    rcases hcl with hl | ⟨pm, hpm⟩
    · simp [Exc.isLookupError] at hl
    · cases hpm
  case validationError =>
    exfalso
    rcases hcl with hl | ⟨pm, hpm⟩
    · simp [Exc.isLookupError] at hl
    · cases hpm

end Patchback

namespace Patchback

/-- C7: whenever the executor succeeds (the push went through) — with
the check object created or with reporting in degraded mode, the two
cases in which the orchestrator runs the executor at all — it requests
creation of a pull request with title
`[PR #<pr_number>/<sha[:8]> backport][<target_branch>] <original title>`,
body = the provenance note (original PR number, base branch, merge
commit) followed by the original body, base = the target branch, head =
the backport branch returned by the executor, maintainer_can_modify =
true and draft = false. -/
theorem C7_pr_creation_payload (pr_number : Nat)
    (title body baseRef headRef sha tb purl slug url : String)
    (env : GhEnv) (outcome : BackportOutcome)
    (hcheck : (∃ checkId, env.checkCreate = .ok checkId) ∨
      ∃ e, env.checkCreate = .error e ∧ check_denied e = true)
    (hE : backport_pr_sync pr_number sha tb slug url env.token env.gitEnv =
      .ok outcome) :
    ApiCall.createPR purl
        ("[PR #" ++ Nat.repr pr_number ++ "/" ++ sha.take 8 ++
          " backport][" ++ tb ++ "] " ++ title)
        outcome.branch tb
        ("**This is a backport of PR #" ++ Nat.repr pr_number ++
          " as merged into " ++ baseRef ++ " (" ++ sha ++ ").**\n\n" ++
          body)
        true false ∈
      (process_pr_backport_labels pr_number title body baseRef headRef sha
        tb purl slug url env).2 := by
  rcases hcheck with ⟨checkId, hok⟩ | ⟨e, herr, hden⟩
  · rw [process_created_eq pr_number title body baseRef headRef sha tb
      purl slug url env checkId hok]
    exact List.mem_cons_of_mem _ (List.mem_cons_of_mem _
      (rest_pr_call_mem pr_number title body baseRef sha tb purl slug url
        env true checkId outcome hE))
  · rw [process_denied_eq pr_number title body baseRef headRef sha tb purl
      slug url env e herr hden]
    exact List.mem_cons_of_mem _
      (rest_pr_call_mem pr_number title body baseRef sha tb purl slug url
        env false 0 outcome hE)

/-- C7 (witness): the PR-creation call evaluated on the concrete sample
world for PR #42 (sha `mc`, base `main`, target `v1.2`). -/
theorem C7_pr_creation_payload_witness :
    ApiCall.createPR "purl"
        ("[PR #" ++ Nat.repr 42 ++ "/" ++ ("mc" : String).take 8 ++
          " backport][" ++ "v1.2" ++ "] " ++ "T")
        outcomeX.branch "v1.2"
        ("**This is a backport of PR #" ++ Nat.repr 42 ++
          " as merged into " ++ "main" ++ " (" ++ "mc" ++ ").**\n\n" ++
          "B")
        true false ∈
      (process_pr_backport_labels 42 "T" "B" "main" "feat" "mc" "v1.2"
        "purl" "o/r" "url" ghEnvX).2 :=
  C7_pr_creation_payload 42 "T" "B" "main" "feat" "mc" "v1.2" "purl" "o/r"
    "url" ghEnvX outcomeX (Or.inl ⟨7, by decide⟩) (by decide)

/-- C5: when check-run creation is denied with the classified 403, the
reporter is permanently disabled for the request: no check-run update is
ever issued on any later path, the denial is not re-raised, and
execution still proceeds — the installation token is fetched and the
executor runs; if the executor succeeds a pull-request creation is
attempted, and on a classified executor failure (`LookupError` or
`PermissionError`) the orchestrator still returns normally. -/
theorem C5_degraded_reporting (pr_number : Nat)
    (title body baseRef headRef sha tb purl slug url : String)
    (env : GhEnv)
    (hc : env.checkCreate =
      .error (.badRequest 403 "Resource not accessible by integration")) :
    (∀ c ∈ (process_pr_backport_labels pr_number title body baseRef
        headRef sha tb purl slug url env).2,
      c.isPatchCheck = false) ∧
    ApiCall.getToken ∈
      (process_pr_backport_labels pr_number title body baseRef headRef sha
        tb purl slug url env).2 ∧
    (∀ outcome,
      backport_pr_sync pr_number sha tb slug url env.token env.gitEnv =
          .ok outcome →
        ∃ c ∈ (process_pr_backport_labels pr_number title body baseRef
            headRef sha tb purl slug url env).2,
          c.isCreatePR = true) ∧
    (∀ e,
      backport_pr_sync pr_number sha tb slug url env.token env.gitEnv =
          .error e →
        e.isLookupError = true ∨ (∃ pm, e = .permissionError pm) →
        (process_pr_backport_labels pr_number title body baseRef headRef
          sha tb purl slug url env).1 = .ok ()) := by
  have hp := process_denied_eq pr_number title body baseRef headRef sha tb
    purl slug url env _ hc (by decide)
  refine ⟨?_, ?_, ?_, ?_⟩
  · intro c hcm
    rw [hp] at hcm
    rcases List.mem_cons.mp hcm with rfl | hcm2
    · rfl
    · have hall := rest_false_all_no_patch pr_number title body baseRef
        sha tb purl slug url env 0
      have hb := List.all_eq_true.mp hall c hcm2
      simpa using hb
  · rw [hp]
    exact List.mem_cons_of_mem _
      (rest_token_mem pr_number title body baseRef sha tb purl slug url
        env false 0)
  · intro outcome hE
    rw [hp]
    exact ⟨_, List.mem_cons_of_mem _
      (rest_pr_call_mem pr_number title body baseRef sha tb purl slug url
        env false 0 outcome hE), rfl⟩
  · intro e hE hcl
    rw [hp]
    exact rest_ok_of_classified pr_number title body baseRef sha tb purl
      slug url env false 0 e hE hcl

/-- C5 (witness): evaluated on the concrete degraded world (check-run
creation denied, git work and PR creation succeeding). -/
theorem C5_degraded_reporting_witness :
    (∀ c ∈ (process_pr_backport_labels 42 "T" "B" "main" "feat" "mc"
        "v1.2" "purl" "o/r" "url" ghEnvDegraded).2,
      c.isPatchCheck = false) ∧
    ApiCall.getToken ∈
      (process_pr_backport_labels 42 "T" "B" "main" "feat" "mc" "v1.2"
        "purl" "o/r" "url" ghEnvDegraded).2 ∧
    (∀ outcome,
      backport_pr_sync 42 "mc" "v1.2" "o/r" "url" ghEnvDegraded.token
          ghEnvDegraded.gitEnv = .ok outcome →
        ∃ c ∈ (process_pr_backport_labels 42 "T" "B" "main" "feat" "mc"
            "v1.2" "purl" "o/r" "url" ghEnvDegraded).2,
          c.isCreatePR = true) ∧
    (∀ e,
      backport_pr_sync 42 "mc" "v1.2" "o/r" "url" ghEnvDegraded.token
          ghEnvDegraded.gitEnv = .error e →
        e.isLookupError = true ∨ (∃ pm, e = .permissionError pm) →
        (process_pr_backport_labels 42 "T" "B" "main" "feat" "mc" "v1.2"
          "purl" "o/r" "url" ghEnvDegraded).1 = .ok ()) :=
  C5_degraded_reporting 42 "T" "B" "main" "feat" "mc" "v1.2" "purl" "o/r"
    "url" ghEnvDegraded (by decide)

end Patchback

namespace Patchback

/-- With reporting enabled, the post-check part issues at most one
terminal transition, and exactly one whenever it returns normally. -/
theorem rest_true_terminal (n : Nat) (t b br mc tb purl slug url : String)
    (env : GhEnv) (cid : Nat) :
    countTerminal
        (backport_rest n t b br mc tb purl slug url env true cid).2 ≤ 1 ∧
    ((backport_rest n t b br mc tb purl slug url env true cid).1 =
        .ok () →
      countTerminal
        (backport_rest n t b br mc tb purl slug url env true cid).2 = 1) := by
  cases hE : backport_pr_sync n mc tb slug url env.token env.gitEnv with
  | error e =>
      rcases e with k | m | m | m | m | ⟨code, m⟩ | m <;>
        simp [backport_rest, hE, Exc.isLookupError, countTerminal,
          ApiCall.isTerminal]
  | ok outcome =>
      rcases hpr : env.prCreate with e2 | u2
      · rcases e2 with k | m | m | m | m | ⟨code, m⟩ | m <;>
          simp [backport_rest, hE, hpr, countTerminal,
            ApiCall.isTerminal] <;>
          try (split <;> simp [countTerminal, ApiCall.isTerminal])
      · simp [backport_rest, hE, hpr, countTerminal, ApiCall.isTerminal]

/-- Unless both the executor and the pull-request creation succeeded, no
`completed(success)` transition appears in the post-check trace. -/
theorem rest_no_success_all (n : Nat)
    (t b br mc tb purl slug url : String) (env : GhEnv) (cid : Nat)
    (h : ((∃ o, backport_pr_sync n mc tb slug url env.token env.gitEnv =
        .ok o) ∧ ∃ u2, env.prCreate = .ok u2) → False) :
    ((backport_rest n t b br mc tb purl slug url env true cid).2.all
      (fun c => !c.isSuccessTerminal)) = true := by
  cases hE : backport_pr_sync n mc tb slug url env.token env.gitEnv with
  | error e =>
      rcases e with k | m | m | m | m | ⟨code, m⟩ | m <;>
        simp [backport_rest, hE, Exc.isLookupError,
          ApiCall.isSuccessTerminal]
  | ok outcome =>
      rcases hpr : env.prCreate with e2 | u2
      · rcases e2 with k | m | m | m | m | ⟨code, m⟩ | m <;>
          simp [backport_rest, hE, hpr, ApiCall.isSuccessTerminal] <;>
          try (split <;> simp [ApiCall.isSuccessTerminal])
      · exact (h ⟨⟨outcome, hE⟩, ⟨u2, hpr⟩⟩).elim

/-- C6 (counterexample to the claim as stated): with a created check
object and an unclassified push failure, the orchestrator propagates the
failure with ZERO terminal transitions — NOT "exactly one terminal
transition across all execution paths". -/
theorem C6_counterexample :
    ghEnvBoom.checkCreate = .ok 7 ∧
    (process_pr_backport_labels 42 "T" "B" "main" "feat" "mc" "v1.2"
      "purl" "o/r" "url" ghEnvBoom).1 = .error (.gitError "boom") ∧
    countTerminal (process_pr_backport_labels 42 "T" "B" "main" "feat"
      "mc" "v1.2" "purl" "o/r" "url" ghEnvBoom).2 = 0 := by
  decide

/-- C6 (amended): for every request whose check object was created, at
most one terminal transition occurs, exactly one occurs on every path
where the orchestrator returns without propagating an unclassified
failure, and `completed(success)` appears only when both the branch push
(executor) and the pull-request creation succeeded. -/
theorem C6_terminal_protocol (pr_number : Nat)
    (title body baseRef headRef sha tb purl slug url : String)
    (env : GhEnv) (checkId : Nat)
    (hcheck : env.checkCreate = .ok checkId) :
    countTerminal (process_pr_backport_labels pr_number title body baseRef
      headRef sha tb purl slug url env).2 ≤ 1 ∧
    ((process_pr_backport_labels pr_number title body baseRef headRef sha
        tb purl slug url env).1 = .ok () →
      countTerminal (process_pr_backport_labels pr_number title body
        baseRef headRef sha tb purl slug url env).2 = 1) ∧
    (∀ c ∈ (process_pr_backport_labels pr_number title body baseRef
        headRef sha tb purl slug url env).2,
      c.isSuccessTerminal = true →
        (∃ o, backport_pr_sync pr_number sha tb slug url env.token
          env.gitEnv = .ok o) ∧ ∃ u2, env.prCreate = .ok u2) := by
  have hp := process_created_eq pr_number title body baseRef headRef sha
    tb purl slug url env checkId hcheck
  have hcount : countTerminal (process_pr_backport_labels pr_number title
      body baseRef headRef sha tb purl slug url env).2 =
      countTerminal
        (backport_rest pr_number title body baseRef sha tb purl slug url
          env true checkId).2 := by
    rw [hp]
    simp [countTerminal, ApiCall.isTerminal]
  have hres : (process_pr_backport_labels pr_number title body baseRef
      headRef sha tb purl slug url env).1 =
      (backport_rest pr_number title body baseRef sha tb purl slug url env
        true checkId).1 := by
    rw [hp]
  obtain ⟨h1, h2⟩ := rest_true_terminal pr_number title body baseRef sha
    tb purl slug url env checkId
  refine ⟨?_, ?_, ?_⟩
  · rw [hcount]
    exact h1
  · rw [hcount, hres]
    exact h2
  · intro c hcm hsc
    by_cases hok : (∃ o, backport_pr_sync pr_number sha tb slug url
        env.token env.gitEnv = .ok o) ∧ ∃ u2, env.prCreate = .ok u2
    · exact hok
    · exfalso
      have hall := rest_no_success_all pr_number title body baseRef sha tb
        purl slug url env checkId hok
      rw [hp] at hcm
      rcases List.mem_cons.mp hcm with rfl | hcm2
      · simp [ApiCall.isSuccessTerminal] at hsc
      · rcases List.mem_cons.mp hcm2 with rfl | hcm3
        · simp [ApiCall.isSuccessTerminal] at hsc
        · have hb := List.all_eq_true.mp hall c hcm3
          rw [hsc] at hb
          simp at hb

/-- C6 (witness): the amended protocol evaluated on the concrete
all-success world. -/
theorem C6_terminal_protocol_witness :
    countTerminal (process_pr_backport_labels 42 "T" "B" "main" "feat"
      "mc" "v1.2" "purl" "o/r" "url" ghEnvX).2 ≤ 1 ∧
    ((process_pr_backport_labels 42 "T" "B" "main" "feat" "mc" "v1.2"
        "purl" "o/r" "url" ghEnvX).1 = .ok () →
      countTerminal (process_pr_backport_labels 42 "T" "B" "main" "feat"
        "mc" "v1.2" "purl" "o/r" "url" ghEnvX).2 = 1) ∧
    (∀ c ∈ (process_pr_backport_labels 42 "T" "B" "main" "feat" "mc"
        "v1.2" "purl" "o/r" "url" ghEnvX).2,
      c.isSuccessTerminal = true →
        (∃ o, backport_pr_sync 42 "mc" "v1.2" "o/r" "url" ghEnvX.token
          ghEnvX.gitEnv = .ok o) ∧ ∃ u2, ghEnvX.prCreate = .ok u2) :=
  C6_terminal_protocol 42 "T" "B" "main" "feat" "mc" "v1.2" "purl" "o/r"
    "url" ghEnvX 7 (by decide)

end Patchback

namespace Patchback

/-- When every per-branch run returns normally, the fan-out loop
processes every target branch, each against its own environment. -/
theorem backport_loop_all_ok (number : Nat) (pr : PullRequest)
    (repo : Repository) (envs : String → GhEnv) (tbs : List String)
    (hok : ∀ tb ∈ tbs,
      (process_pr_backport_labels number pr.title pr.body pr.base_ref
        pr.head_ref pr.merge_commit_sha tb repo.pulls_url repo.full_name
        repo.clone_url (envs tb)).1 = .ok ()) :
    backport_loop number pr repo envs tbs =
      (.ok (), tbs.map fun tb =>
        (tb, (process_pr_backport_labels number pr.title pr.body
          pr.base_ref pr.head_ref pr.merge_commit_sha tb repo.pulls_url
          repo.full_name repo.clone_url (envs tb)).2)) := by
  induction tbs with
  | nil => rfl
  | cons tb rest ih =>
      have h1 := hok tb (by simp)
      have h2 := ih (fun x hx => hok x (by simp [hx]))
      simp [backport_loop, h1, h2]

/-- C8 (counterexample to the claim as stated): a merged PR with labels
`backport-v1.2` and `backport-v1.3` where processing of `v1.2` hits an
unclassified failure — the failure propagates and `v1.3` is never
processed, so a failure on one target branch DOES affect the others. -/
theorem C8_counterexample :
    target_branches_of prX.labels = ["v1.2", "v1.3"] ∧
    (on_merge_of_labeled_pr 5 prX repoX envsBoom).1 =
      .error (.gitError "boom") ∧
    (on_merge_of_labeled_pr 5 prX repoX envsBoom).2.map Prod.fst =
      ["v1.2"] := by
  decide

/-- C8 (amended): for every merged PR, the merge handler produces exactly
one backport request per `backport-`-labelled target branch (the label
minus its prefix), in label order, each processed against its own
environment; whenever every per-branch run returns normally — i.e. on
success or on a CLASSIFIED failure — all target branches are processed
and no branch's outcome affects another's trace.  (An unclassified
failure, by contrast, propagates and aborts the remaining branches, as
the counterexample shows.) -/
theorem C8_fanout_independent (number : Nat) (pr : PullRequest)
    (repo : Repository) (envs : String → GhEnv)
    (hm : pr.merged = true)
    (hok : ∀ tb ∈ target_branches_of pr.labels,
      (process_pr_backport_labels number pr.title pr.body pr.base_ref
        pr.head_ref pr.merge_commit_sha tb repo.pulls_url repo.full_name
        repo.clone_url (envs tb)).1 = .ok ()) :
    on_merge_of_labeled_pr number pr repo envs =
      (.ok (), (target_branches_of pr.labels).map fun tb =>
        (tb, (process_pr_backport_labels number pr.title pr.body
          pr.base_ref pr.head_ref pr.merge_commit_sha tb repo.pulls_url
          repo.full_name repo.clone_url (envs tb)).2)) := by
  have hloop := backport_loop_all_ok number pr repo envs
    (target_branches_of pr.labels) hok
  cases htb : target_branches_of pr.labels with
  | nil => simp [on_merge_of_labeled_pr, hm, htb]
  | cons a l =>
      rw [htb] at hloop
      simp [on_merge_of_labeled_pr, hm, htb, hloop]

/-- C8 (witness): PR #5 with labels `backport-v1.2` and `backport-v1.3`
against per-branch worlds where `v1.2` fully succeeds and `v1.3` fails
classified (branch absent): both branches are processed. -/
theorem C8_fanout_independent_witness :
    on_merge_of_labeled_pr 5 prX repoX envsOk =
      (.ok (), (target_branches_of prX.labels).map fun tb =>
        (tb, (process_pr_backport_labels 5 prX.title prX.body prX.base_ref
          prX.head_ref prX.merge_commit_sha tb repoX.pulls_url
          repoX.full_name repoX.clone_url (envsOk tb)).2)) :=
  C8_fanout_independent 5 prX repoX envsOk (by decide) (by decide)

end Patchback

namespace Patchback

/-! ### Branch-name injectivity machinery -/

/-- `Nat.digitChar` never yields a slash. -/
theorem digitChar_ne_slash (m : Nat) : Nat.digitChar m ≠ '/' := by
  by_cases hm : m < 16
  · have hb : ∀ k < 16, Nat.digitChar k ≠ '/' := by decide
    exact hb m hm
  · intro h
    unfold Nat.digitChar at h
    iterate 16 rw [if_neg (by omega)] at h
    exact absurd h (by decide)

/-- No slash is introduced by the digit-accumulation loop behind
`Nat.repr`. -/
theorem slash_notin_toDigitsCore (fuel : Nat) :
    ∀ (n : Nat) (ds : List Char), '/' ∉ ds →
      '/' ∉ Nat.toDigitsCore 10 fuel n ds := by
  induction fuel with
  | zero =>
      intro n ds h
      simpa [Nat.toDigitsCore] using h
  | succ f ih =>
      intro n ds h
      have hd : '/' ∉ (Nat.digitChar (n % 10) :: ds) := by
        intro hc
        rcases List.mem_cons.mp hc with hc | hc
        · exact digitChar_ne_slash (n % 10) hc.symm
        · exact h hc
      simp only [Nat.toDigitsCore]
      split
      · exact hd
      · exact ih (n / 10) (Nat.digitChar (n % 10) :: ds) hd

/-- The decimal representation of a natural number contains no slash. -/
theorem slash_notin_repr (n : Nat) : '/' ∉ (Nat.repr n).data := by
  have h := slash_notin_toDigitsCore (n + 1) n [] (by simp)
  simpa [Nat.repr, Nat.toDigits, List.asString] using h

/-- With enough fuel, `Nat.toDigitsCore` produces exactly the reversed
digit list of `Nat.digits`, mapped through `Nat.digitChar`. -/
theorem toDigitsCore_eq_digits :
    ∀ (n fuel : Nat) (ds : List Char), 0 < n → n < fuel →
      Nat.toDigitsCore 10 fuel n ds =
        ((Nat.digits 10 n).map Nat.digitChar).reverse ++ ds := by
  intro n
  induction n using Nat.strong_induction_on with
  | _ n ih =>
      intro fuel ds hn hfuel
      match fuel, hfuel with
      | f + 1, hfuel =>
        have hdig : Nat.digits 10 n = n % 10 :: Nat.digits 10 (n / 10) :=
          Nat.digits_def' (by norm_num) hn
        rw [hdig]
        simp only [Nat.toDigitsCore, List.map_cons, List.reverse_cons]
        split
        · rename_i h10
          rw [h10]
          simp
        · rename_i h10
          have hpos : 0 < n / 10 := Nat.pos_of_ne_zero h10
          have hlt : n / 10 < n := Nat.div_lt_self hn (by norm_num)
          have hf : n / 10 < f :=
            lt_of_lt_of_le hlt (Nat.lt_succ_iff.mp hfuel)
          rw [ih (n / 10) hlt f (Nat.digitChar (n % 10) :: ds) hpos hf]
          simp

/-- `Nat.digitChar` is injective below the base. -/
theorem digitChar_inj_lt :
    ∀ a < 10, ∀ b < 10, Nat.digitChar a = Nat.digitChar b → a = b := by
  decide

/-- Mapping `Nat.digitChar` over digit lists (entries below 10) is
injective. -/
theorem map_digitChar_inj :
    ∀ (l1 l2 : List Nat), (∀ d ∈ l1, d < 10) → (∀ d ∈ l2, d < 10) →
      l1.map Nat.digitChar = l2.map Nat.digitChar → l1 = l2 := by
  intro l1
  induction l1 with
  | nil =>
      intro l2 _ _ h
      cases l2 <;> simp_all
  | cons a t ih =>
      intro l2 h1 h2 h
      cases l2 with
      | nil => simp_all
      | cons b t2 =>
          simp only [List.map_cons, List.cons.injEq] at h
          have ha : a = b :=
            digitChar_inj_lt a (h1 a (by simp)) b (h2 b (by simp)) h.1
          have ht := ih t2 (fun d hd => h1 d (by simp [hd]))
            (fun d hd => h2 d (by simp [hd])) h.2
          simp [ha, ht]

/-- `Nat.toDigits` of a positive number in terms of `Nat.digits`. -/
theorem toDigits_eq_of_pos (n : Nat) (hn : 0 < n) :
    Nat.toDigits 10 n = ((Nat.digits 10 n).map Nat.digitChar).reverse := by
  have h := toDigitsCore_eq_digits n (n + 1) [] hn (Nat.lt_succ_self n)
  simpa [Nat.toDigits] using h

/-- The decimal string representation of naturals is injective. -/
theorem repr_injective (n1 n2 : Nat) (h : Nat.repr n1 = Nat.repr n2) :
    n1 = n2 := by
  have hl : Nat.toDigits 10 n1 = Nat.toDigits 10 n2 := by
    have hd := congrArg String.data h
    simpa [Nat.repr, List.asString] using hd
  rcases Nat.eq_zero_or_pos n1 with h1 | h1 <;>
    rcases Nat.eq_zero_or_pos n2 with h2 | h2
  · rw [h1, h2]
  · exfalso
    subst h1
    rw [toDigits_eq_of_pos n2 h2] at hl
    have hz : Nat.toDigits 10 0 = ['0'] := rfl
    rw [hz] at hl
    have hmap : (Nat.digits 10 n2).map Nat.digitChar = ['0'] := by
      have hrev := congrArg List.reverse hl
      simpa using hrev.symm
    have hdig : Nat.digits 10 n2 = [0] := by
      have h0 : ([0] : List Nat).map Nat.digitChar = ['0'] := by decide
      exact map_digitChar_inj (Nat.digits 10 n2) [0]
        (fun d hd => Nat.digits_lt_base (by norm_num) hd)
        (by decide) (by rw [hmap, h0])
    have := Nat.ofDigits_digits 10 n2
    rw [hdig] at this
    simp [Nat.ofDigits] at this
    omega
  · exfalso
    subst h2
    rw [toDigits_eq_of_pos n1 h1] at hl
    have hz : Nat.toDigits 10 0 = ['0'] := rfl
    rw [hz] at hl
    have hmap : (Nat.digits 10 n1).map Nat.digitChar = ['0'] := by
      have := congrArg List.reverse hl
      simpa using this
    have hdig : Nat.digits 10 n1 = [0] := by
      have h0 : ([0] : List Nat).map Nat.digitChar = ['0'] := by decide
      exact map_digitChar_inj (Nat.digits 10 n1) [0]
        (fun d hd => Nat.digits_lt_base (by norm_num) hd)
        (by decide) (by rw [hmap, h0])
    have := Nat.ofDigits_digits 10 n1
    rw [hdig] at this
    simp [Nat.ofDigits] at this
    omega
  · rw [toDigits_eq_of_pos n1 h1, toDigits_eq_of_pos n2 h2] at hl
    have hmap : (Nat.digits 10 n1).map Nat.digitChar =
        (Nat.digits 10 n2).map Nat.digitChar := by
      have := congrArg List.reverse hl
      simpa using this
    have hdig := map_digitChar_inj (Nat.digits 10 n1) (Nat.digits 10 n2)
      (fun d hd => Nat.digits_lt_base (by norm_num) hd)
      (fun d hd => Nat.digits_lt_base (by norm_num) hd) hmap
    have e1 := Nat.ofDigits_digits 10 n1
    have e2 := Nat.ofDigits_digits 10 n2
    rw [hdig] at e1
    rw [e2] at e1
    exact e1.symm

/-- `takeWhile (≠ slash)` stops exactly at the first slash. -/
theorem takeWhile_slash (u w : List Char) (hu : '/' ∉ u) :
    (u ++ '/' :: w).takeWhile (fun c => c != '/') = u := by
  induction u with
  | nil => simp [List.takeWhile_cons]
  | cons a t ih =>
      have ha : a ≠ '/' := fun e => hu (by simp [e])
      have ht : '/' ∉ t := fun hc => hu (List.mem_cons_of_mem _ hc)
      simp [List.takeWhile_cons, ha, ih ht]

/-- `dropWhile (≠ slash)` drops exactly up to the first slash. -/
theorem dropWhile_slash (u w : List Char) (hu : '/' ∉ u) :
    (u ++ '/' :: w).dropWhile (fun c => c != '/') = '/' :: w := by
  induction u with
  | nil => simp [List.dropWhile_cons]
  | cons a t ih =>
      have ha : a ≠ '/' := fun e => hu (by simp [e])
      have ht : '/' ∉ t := fun hc => hu (List.mem_cons_of_mem _ hc)
      simp [List.dropWhile_cons, ha, ih ht]

/-- Character-level shape of the backport branch name. -/
theorem branch_name_data_shape (t s : String) (n : Nat) :
    (backport_branch_name t s n).data =
      "patchback/backports/".data ++ t.data ++ '/' ::
        (s.data ++ '/' :: 'p' :: 'r' :: (Nat.repr n).data) := by
  simp only [backport_branch_name, String.data_append]
  simp

/-- Reversed character-level shape of the backport branch name, in the
form the right-to-left parse consumes. -/
theorem branch_name_data_reverse (t s : String) (n : Nat) :
    ((backport_branch_name t s n).data).reverse =
      ((Nat.repr n).data.reverse ++ ['r', 'p']) ++ '/' ::
        (s.data.reverse ++ '/' ::
          (t.data.reverse ++ "patchback/backports/".data.reverse)) := by
  rw [branch_name_data_shape]
  simp

/-- C9 (counterexample to the claim as stated): over arbitrary strings
the branch name is NOT injective — when the merge-commit string contains
a slash, distinct triples collide. -/
theorem C9_counterexample :
    backport_branch_name "x/y" "z" 1 = backport_branch_name "x" "y/z" 1 ∧
    ¬("x/y" = "x" ∧ ("z" : String) = "y/z" ∧ (1 : Nat) = 1) := by
  decide

/-- C9 (amended): the backport branch name is a deterministic function of
its inputs (it is a pure function), and it is injective over all triples
whose merge-commit-sha component contains no slash (true of every real
sha): equal branch names imply equal triples. -/
theorem C9_branch_name_injective (t1 s1 t2 s2 : String) (n1 n2 : Nat)
    (h1 : '/' ∉ s1.data) (h2 : '/' ∉ s2.data)
    (h : backport_branch_name t1 s1 n1 = backport_branch_name t2 s2 n2) :
    t1 = t2 ∧ s1 = s2 ∧ n1 = n2 := by
  have hd := congrArg String.data h
  have hR := congrArg List.reverse hd
  rw [branch_name_data_reverse, branch_name_data_reverse] at hR
  have hn1 : '/' ∉ (Nat.repr n1).data.reverse ++ ['r', 'p'] := by
    intro hc
    rcases List.mem_append.mp hc with hc | hc
    · exact slash_notin_repr n1 (List.mem_reverse.mp hc)
    · exact absurd hc (by decide)
  have hn2 : '/' ∉ (Nat.repr n2).data.reverse ++ ['r', 'p'] := by
    intro hc
    rcases List.mem_append.mp hc with hc | hc
    · exact slash_notin_repr n2 (List.mem_reverse.mp hc)
    · exact absurd hc (by decide)
  have ht1 := congrArg (List.takeWhile (fun c => c != '/')) hR
  rw [takeWhile_slash _ _ hn1, takeWhile_slash _ _ hn2] at ht1
  have hReq := List.append_cancel_right ht1
  have hRdata : (Nat.repr n1).data = (Nat.repr n2).data := by
    simpa using congrArg List.reverse hReq
  have hnn : n1 = n2 := repr_injective n1 n2 (String.ext hRdata)
  have hdrop := congrArg (List.dropWhile (fun c => c != '/')) hR
  rw [dropWhile_slash _ _ hn1, dropWhile_slash _ _ hn2] at hdrop
  injection hdrop with _ hd2
  have hs1r : '/' ∉ s1.data.reverse := fun hc => h1 (List.mem_reverse.mp hc)
  have hs2r : '/' ∉ s2.data.reverse := fun hc => h2 (List.mem_reverse.mp hc)
  have ht2 := congrArg (List.takeWhile (fun c => c != '/')) hd2
  rw [takeWhile_slash _ _ hs1r, takeWhile_slash _ _ hs2r] at ht2
  have hss : s1 = s2 :=
    String.ext (by simpa using congrArg List.reverse ht2)
  have hd3 := congrArg (List.dropWhile (fun c => c != '/')) hd2
  rw [dropWhile_slash _ _ hs1r, dropWhile_slash _ _ hs2r] at hd3
  injection hd3 with _ hd4
  have htail := List.append_cancel_right hd4
  have htt : t1 = t2 :=
    String.ext (by simpa using congrArg List.reverse htail)
  exact ⟨htt, hss, hnn⟩

/-- C9 (witness): the injectivity theorem applied at a concrete
slash-free pair of triples. -/
theorem C9_branch_name_injective_witness :
    "a" = "a" ∧ ("b" : String) = "b" ∧ (7 : Nat) = 7 :=
  C9_branch_name_injective "a" "b" "a" "b" 7 7 (by decide) (by decide)
    (by decide)

end Patchback
